import Mathlib

/-!
Verification of the Wave conformance test harness (src/tools/run_tests.py).

The harness drives the compiler binary over a directory of fixture programs,
classifies each run as PASS_ZERO (1), PASS_NONZERO (3), FAIL (0), SKIP (2) or
TIMEOUT (-1), and reports bucketed results.  This file is a shallow embedding
of that script: the pure classification logic is translated directly; the
effectful parts (subprocess execution, the TCP client check, the UDP stimulus
thread) are modelled by passing their observable results in explicitly as
parameters, and by event traces where the claim is about control flow.
-/

/-- A single quote character, used to build pattern strings. -/
def squote : String := String.mk [Char.ofNat 39]

/-- Constant `TIMEOUT_SEC = 5` from the script: the bounded wait applied to every
standard-mode run, in seconds. -/
def TIMEOUT_SEC : ℚ := 5

/-- Constant `KNOWN_TIMEOUT` from the script.  In the source it is a literal with every
entry commented out, hence empty. -/
def KNOWN_TIMEOUT : List String := []

/-- Constant `FAIL_PATTERNS` from the script: the failure-signature substrings searched
for in captured stderr. -/
def FAIL_PATTERNS : List String :=
  ["WaveError",
   "WaveErrorKind",
   "SyntaxError",
   "failed to parse",
   "Failed to run",
   "thread " ++ squote ++ "main" ++ squote ++ " panicked",
   "panicked at",
   "LLVM ERROR",
   "Segmentation fault",
   "stack overflow"]

/-- Predicate `subAt pat hay` holds when `pat` is a prefix of `hay` (char by char). -/
def subAt : List Char → List Char → Bool
  | [], _ => true
  | _ :: _, [] => false
  | p :: ps, h :: hs => p == h && subAt ps hs

/-- Predicate `occursIn pat hay` holds when `pat` occurs contiguously somewhere in
`hay`; this models the Python `in` operator on strings. -/
def occursIn (pat : List Char) : List Char → Bool
  | [] => pat.isEmpty
  | h :: t => subAt pat (h :: t) || occursIn pat t

/-- String containment, `pat in hay` in Python. -/
def strContains (hay pat : String) : Bool :=
  occursIn pat.data hay.data

/-- The whitespace characters removed by the Python str.strip method (the
ASCII ones: space, tab, newline, vertical tab, form feed, carriage
return). -/
def pySpace (c : Char) : Bool :=
  c == ' ' || c == '\t' || c == '\n' || c == Char.ofNat 11 || c == Char.ofNat 12 || c == '\r'

/-- Python str.strip: remove leading and trailing whitespace. -/
def pyStrip (s : String) : String :=
  String.mk (((s.data.dropWhile pySpace).reverse.dropWhile pySpace).reverse)

/-- Python str.lower on the ASCII range (every character of the failure
patterns is ASCII). -/
def pyLower (s : String) : String :=
  String.mk (s.data.map Char.toLower)

/-- Function `looks_like_fail` from the script, translated clause for clause:
empty stderr is clean, whitespace-only stderr is clean, otherwise the
stripped stderr is lowercased and searched for each lowercased failure
pattern. -/
def looks_like_fail (stderr : String) : Bool :=
  if stderr == "" then false
  else if pyStrip stderr == "" then false
  else FAIL_PATTERNS.any (fun p => strContains (pyLower (pyStrip stderr)) (pyLower p))

/-- The observable result of one standard-mode subprocess run: either the
5-second timeout expired (`subprocess.TimeoutExpired`), or the process
completed with an exit status and captured stdout/stderr texts. -/
inductive ExecResult
  | timedOut
  | completed (returncode : Int) (stdout : String) (stderr : String)
deriving DecidableEq

/-- The client-side step of the server check in which an exception can be
raised. -/
inductive ClientStep
  | connect
  | send
  | recv
deriving DecidableEq

/-- The observable result of the TCP client exchange inside
`run_test56_server`: either the bytes read from the connection (at most 4096,
modelled as a string), or an exception raised at one of the client steps. -/
inductive ServerResult
  | ok (data : String)
  | exc (failStep : ClientStep) (err : String)
deriving DecidableEq

/-- The literal marker whose presence in the response makes the server check
pass. -/
def SERVER_MARKER : String := "Welcome to the Wave HTTP Server!"

/-- Function `run_test56_server` from the script, as a function of the client exchange
result.  The `try/except` around the exchange absorbs every client-side
exception and turns it into the FAIL return 0; a completed read passes (1)
exactly when the marker bytes occur in the response. -/
def run_test56_server (r : ServerResult) : Int :=
  match r with
  | .ok data => if strContains data SERVER_MARKER then 1 else 0
  | .exc _ _ => 0

/-- Events performed by `run_test56_server`, for reasoning about its
control flow (in particular the `finally` teardown of the child process). -/
inductive ServerEv
  | spawn
  | bootSleep
  | connect
  | send
  | recv
  | sockClose
  | clientError
  | terminate
  | waitChild
  | kill
deriving DecidableEq

/-- Client steps actually performed before an exception at the given step
interrupts the exchange. -/
def stepsUpTo : ClientStep → List ServerEv
  | .connect => [.connect]
  | .send => [.connect, .send]
  | .recv => [.connect, .send, .recv]

/-- The teardown in the `finally` block of `run_test56_server`:
`proc.terminate()`, then `proc.wait(timeout=1)`, and `proc.kill()` when the
child has not exited within that 1-second grace period. -/
def teardownEvents (exitsInGrace : Bool) : List ServerEv :=
  [.terminate, .waitChild] ++ (if exitsInGrace then [] else [.kill])

/-- The event trace of `run_test56_server`.  Python `finally` semantics run
the teardown on every exit path — normal return and exception alike — which
the translation renders by appending `teardownEvents` outside the match on
the exchange result. -/
def run_test56_events (r : ServerResult) (exitsInGrace : Bool) : List ServerEv :=
  (match r with
   | .ok _ => [.spawn, .bootSleep, .connect, .send, .recv, .sockClose]
   | .exc s _ => [.spawn, .bootSleep] ++ stepsUpTo s ++ [.clientError]) ++
  teardownEvents exitsInGrace

/-- The stdin text selected by `run_and_classify` for the two
piped-input fixtures. -/
def stdin_for (name : String) : Option String :=
  if name == "test74.wave" then some "10\n"
  else if name == "test22.wave" then some "3\n"
  else none

/-- One action of the UDP stimulus body `send_udp_for_test61`. -/
inductive UdpAct
  | sleep (secs : ℚ)
  | sendto (payload : String) (host : String) (port : ℕ)
  | sockClose
deriving DecidableEq

/-- Body of `send_udp_for_test61` from the script: sleep half a second, send one
datagram to 127.0.0.1:8080, close the socket. -/
def send_udp_for_test61 : List UdpAct :=
  [.sleep (1 / 2), .sendto "hello from python\n" "127.0.0.1" 8080, .sockClose]

/-- Is this action a datagram send? -/
def UdpAct.isSend : UdpAct → Bool
  | .sendto _ _ _ => true
  | _ => false

/-- A background thread started by the harness.  `joined` and `cancelled`
record whether the harness ever joins or cancels it; the script only ever
calls `threading.Thread(..., daemon=True).start()`, so both are `false`. -/
structure SpawnedThread where
  body : List UdpAct
  daemon : Bool
  joined : Bool
  cancelled : Bool
deriving DecidableEq

/-- The background threads `run_and_classify` starts for a given fixture
name.  The test56 dispatch returns before the thread-spawning code, so that
name spawns nothing; test61 and test62 each spawn one detached daemon thread
running `send_udp_for_test61`. -/
def threads_spawned (name : String) : List SpawnedThread :=
  if name == "test56.wave" then []
  else
    (if name == "test61.wave" then [⟨send_udp_for_test61, true, false, false⟩] else []) ++
    (if name == "test62.wave" then [⟨send_udp_for_test61, true, false, false⟩] else [])

/-- Function `run_and_classify` from the script, as a function of the observable
results of its effects.  Return codes follow the comment in the source:
1 = PASS (exit 0), 3 = PASS (exit nonzero), 0 = FAIL, 2 = SKIP,
-1 = TIMEOUT.  The `test56.wave` dispatch happens first, before any
standard-mode invocation; on a timeout the `except` branch consults
`KNOWN_TIMEOUT`; otherwise stderr signatures are checked before the exit
status. -/
def run_and_classify (name : String) (server : ServerResult) (res : ExecResult) : Int :=
  if name == "test56.wave" then run_test56_server server
  else
    match res with
    | .timedOut => if KNOWN_TIMEOUT.contains name then 2 else -1
    | .completed rc _ err =>
      if looks_like_fail err then 0
      else if rc == 0 then 1
      else 3

/-- Did the run time out?  Accessor on `ExecResult`. -/
def ExecResult.isTimedOut : ExecResult → Bool
  | .timedOut => true
  | .completed _ _ _ => false

/-- Exit status of a completed run (0 as a default for a timed-out run; the
classifier never consults it in that case). -/
def ExecResult.rc : ExecResult → Int
  | .timedOut => 0
  | .completed rc _ _ => rc

/-- Captured stderr of a completed run (empty for a timed-out run; the
classifier never consults it in that case). -/
def ExecResult.errText : ExecResult → String
  | .timedOut => ""
  | .completed _ _ e => e

/-- The classification inputs named by the specification: two runs agree on
them when they have the same timed-out status and, for completed runs, the
same exit status and the same captured stderr.  The captured stdout is
deliberately not part of this relation. -/
def sameClassInputs : ExecResult → ExecResult → Prop
  | .timedOut, .timedOut => True
  | .completed rc _ e, .completed rc' _ e' => rc = rc' ∧ e = e'
  | _, _ => False

/-- The classifier exactly as the specification words it (section 4.4): an
ordered rule list, first match wins — timeout (SKIP when allowlisted, else
TIMEOUT), then a case-insensitive failure-signature search in the trimmed
stderr forcing FAIL, then exit status 0 giving PASS_ZERO, else
PASS_NONZERO. -/
def classifierSpec (name : String) (timedOutFlag : Bool) (rc : Int) (stderr : String) : Int :=
  if timedOutFlag then
    if KNOWN_TIMEOUT.contains name then 2 else -1
  else if FAIL_PATTERNS.any (fun p => strContains (pyLower (pyStrip stderr)) (pyLower p)) then 0
  else if rc == 0 then 1
  else 3

/-- The observable environment of one whole harness invocation: whether the
compiler binary and the test directory exist, the entries of the test
directory, whether test28/main.wave exists, and the per-fixture observable
results of the effectful steps. -/
structure HarnessEnv where
  wavecExists : Bool
  testDirExists : Bool
  dirFiles : List String
  test28Exists : Bool
  exec : String → ExecResult
  server : ServerResult
  stimulusDelivered : Bool

/-- Does a directory-entry name match the glob pattern test*.wave?  The star
matches any (possibly empty) run of characters of the name, so a name
matches exactly when it starts with test and ends with .wave. -/
def matchesTestGlob (s : String) : Bool :=
  subAt "test".data s.data && subAt ".wave".data.reverse s.data.reverse

/-- Lexicographic code-point comparison of character lists: the order Python
uses to compare strings. -/
def charsLe : List Char → List Char → Bool
  | [], _ => true
  | _ :: _, [] => false
  | a :: as, b :: bs => if a = b then charsLe as bs else decide (a < b)

/-- Lexicographic string comparison, Python style. -/
def strLeB (a b : String) : Bool :=
  charsLe a.data b.data

/-- The lexicographic order as a relation, for sortedness statements. -/
def strLeRel (a b : String) : Prop :=
  strLeB a b = true

/-- Insert a name into an already sorted list of names, keeping it sorted
(the insertion step of a stable sort, which is what the Python built-in
sorted performs). -/
def insertSorted (x : String) : List String → List String
  | [] => [x]
  | y :: ys => if strLeB x y then x :: y :: ys else y :: insertSorted x ys

/-- Stable lexicographic sort of a list of names, modelling the Python
built-in sorted. -/
def sortNames : List String → List String
  | [] => []
  | x :: xs => insertSorted x (sortNames xs)

/-- The sorted glob `sorted(TEST_DIR.glob("test*.wave"))`.  Python pathlib
glob over a missing directory checks `is_dir` first and yields nothing
instead of raising, so a missing test directory produces the empty list;
over an existing directory it yields the matching entries, and `sorted`
orders them lexicographically. -/
def globNames (env : HarnessEnv) : List String :=
  if env.testDirExists then
    sortNames (env.dirFiles.filter matchesTestGlob)
  else []

/-- Check `(TEST_DIR / "test28" / "main.wave").exists()`: only possible when the
test directory itself exists. -/
def test28Present (env : HarnessEnv) : Bool :=
  env.testDirExists && env.test28Exists

/-- The name under which the directory-form fixture is recorded. -/
def DIR_FIXTURE : String := "test28 (dir)"

/-- The fixture identifiers in the order the driver processes them: the
sorted glob matches, then — when its entry point exists — the single
appended directory-form fixture. -/
def discoveredNames (env : HarnessEnv) : List String :=
  globNames env ++ (if test28Present env then [DIR_FIXTURE] else [])

/-- One fixture run inside the driver loop: classify against the observable
results recorded in the environment. -/
def run_one (env : HarnessEnv) (name : String) : Int :=
  run_and_classify name env.server (env.exec name)

/-- The `results` list after the driver loop and the test28 append: one
(name, outcome) pair per discovered fixture, in discovery order. -/
def driverResults (env : HarnessEnv) : List (String × Int) :=
  (discoveredNames env).map (fun n => (n, run_one env n))

/-- How one harness invocation ends: `exit(code)` before the driver loop, or
normal completion carrying the results list. -/
inductive HarnessExit
  | fatal (code : Int)
  | finished (results : List (String × Int))

/-- The whole script: the pre-flight `WAVEC.exists()` check exits with
status 1 before any fixture runs; otherwise the driver loop runs every
discovered fixture and completes with the results list. -/
def run_harness (env : HarnessEnv) : HarnessExit :=
  if env.wavecExists then .finished (driverResults env) else .fatal 1

/-- Bucket `pass_zero`, a list comprehension from the script. -/
def pass_zero (rs : List (String × Int)) : List String :=
  (rs.filter (fun p => p.2 == 1)).map Prod.fst

/-- Bucket `pass_nonzero`, a list comprehension from the script. -/
def pass_nonzero (rs : List (String × Int)) : List String :=
  (rs.filter (fun p => p.2 == 3)).map Prod.fst

/-- Bucket `fail_tests`, a list comprehension from the script. -/
def fail_tests (rs : List (String × Int)) : List String :=
  (rs.filter (fun p => p.2 == 0)).map Prod.fst

/-- Bucket `timeout_tests`, a list comprehension from the script. -/
def timeout_tests (rs : List (String × Int)) : List String :=
  (rs.filter (fun p => p.2 == -1)).map Prod.fst

/-- Bucket `skip_tests`, a list comprehension from the script. -/
def skip_tests (rs : List (String × Int)) : List String :=
  (rs.filter (fun p => p.2 == 2)).map Prod.fst

/-- Is this integer one of the five outcome codes the script returns? -/
def outcomeOk (r : Int) : Bool :=
  r == 1 || r == 3 || r == 0 || r == 2 || r == -1

/-- A concrete discovery environment used as a witness input: an unsorted
directory listing with one non-matching entry, and an existing
test28/main.wave. -/
def envSortW : HarnessEnv :=
  ⟨true, true, ["test9.wave", "test10.wave", "alpha.txt"], true,
   fun _ => .completed 0 "" "", .exc .connect "refused", false⟩

/-- A harness environment whose test directory is missing (so its listing
and the test28 entry point are absent) but whose compiler binary exists. -/
def envNoDir : HarnessEnv :=
  ⟨true, false, [], false, fun _ => .completed 0 "" "", .exc .connect "refused", false⟩

/-- A harness environment whose compiler binary is missing. -/
def envNoWavec : HarnessEnv :=
  ⟨false, true, ["test1.wave"], false, fun _ => .completed 0 "" "", .exc .connect "refused", false⟩

/-- The early empty-string returns of `looks_like_fail` change nothing: an
empty or whitespace-only stderr contains none of the (nonempty) failure
patterns, so `looks_like_fail` agrees everywhere with the plain
case-insensitive search over the trimmed stderr. -/
theorem looks_like_fail_eq_spec (err : String) :
    looks_like_fail err =
      FAIL_PATTERNS.any (fun p => strContains (pyLower (pyStrip err)) (pyLower p)) := by
  unfold looks_like_fail
  split
  · next h =>
    have he : err = "" := by simpa using h
    subst he
    decide
  · next _ =>
    split
    · next h2 =>
      have he : pyStrip err = "" := by simpa using h2
      rw [he]
      decide
    · next _ => rfl

/-- C1: in standard mode (every fixture other than test56.wave) the outcome
is computed by the ordered first-match rule list of the specification:
timeout (allowlist gives SKIP, else TIMEOUT), then failure signature in the
trimmed stderr forcing FAIL regardless of exit status, then exit status 0
giving PASS_ZERO, else PASS_NONZERO. -/
theorem standard_mode_decision_order (name : String) (hname : name ≠ "test56.wave")
    (server : ServerResult) (res : ExecResult) :
    run_and_classify name server res =
      classifierSpec name res.isTimedOut res.rc res.errText := by
  have hb : (name == "test56.wave") = false := beq_eq_false_iff_ne.mpr hname
  cases res with
  | timedOut =>
    simp [run_and_classify, classifierSpec, hb, ExecResult.isTimedOut,
      ExecResult.rc, ExecResult.errText]
  | completed rc out err =>
    simp [run_and_classify, classifierSpec, hb, ExecResult.isTimedOut,
      ExecResult.rc, ExecResult.errText, looks_like_fail_eq_spec]

/-- Witness for C1 at a concrete standard-mode run: exit status 0 with a
WaveError signature on stderr. -/
theorem standard_mode_decision_order_witness :
    run_and_classify "test1.wave" (.exc .connect "refused")
        (.completed 0 "some output" "WaveError: boom") =
      classifierSpec "test1.wave" false 0 "WaveError: boom" :=
  standard_mode_decision_order "test1.wave" (by decide) (.exc .connect "refused")
    (.completed 0 "some output" "WaveError: boom")

/-- C2: the test56.wave fixture is dispatched to the server check by its
name alone, before and independently of any standard-mode execution result;
the check passes (1) exactly when the bytes read contain the literal marker,
and every client-side exception is absorbed into the FAIL result 0. -/
theorem server_check_marker_iff (server : ServerResult) (res : ExecResult) :
    run_and_classify "test56.wave" server res = run_test56_server server ∧
    (run_test56_server server = 1 ↔
      ∃ data, server = .ok data ∧ strContains data SERVER_MARKER = true) ∧
    (∀ s e, server = .exc s e → run_test56_server server = 0) := by
  refine ⟨rfl, ?_, ?_⟩
  · cases server with
    | ok data =>
      cases hs : strContains data SERVER_MARKER with
      | true => simp [run_test56_server, hs]
      | false => simp [run_test56_server, hs]
    | exc s e => simp [run_test56_server]
  · intro s e he
    subst he
    rfl

/-- Witness for C2: a read timeout during recv is absorbed and classified
FAIL (0), with no standard-mode invocation consulted. -/
theorem server_check_marker_iff_witness :
    run_and_classify "test56.wave" (.exc .recv "timed out") (.completed 0 "" "") = 0 := by
  have h := server_check_marker_iff (.exc .recv "timed out") (.completed 0 "" "")
  rw [h.1]
  exact h.2.2 .recv "timed out" rfl

/-- C3: on every exit path of the server check — marker found, marker
missing, or an exception at any client step — the trace ends with the
teardown: terminate, wait up to the grace period, and kill when the child
has not exited in time. -/
theorem server_check_unconditional_teardown (r : ServerResult) (g : Bool) :
    ServerEv.terminate ∈ run_test56_events r g ∧
    (g = false → ServerEv.kill ∈ run_test56_events r g) ∧
    ∃ pre, run_test56_events r g = pre ++ teardownEvents g := by
  refine ⟨?_, ?_, ⟨_, rfl⟩⟩
  · cases r <;> simp [run_test56_events, teardownEvents]
  · intro hg
    subst hg
    cases r <;> simp [run_test56_events, teardownEvents]

/-- Witness for C3 at a concrete failing run: connection refused and a child
that ignores the graceful terminate; both terminate and kill appear in the
trace. -/
theorem server_check_unconditional_teardown_witness :
    ServerEv.terminate ∈ run_test56_events (.exc .connect "refused") false ∧
    ServerEv.kill ∈ run_test56_events (.exc .connect "refused") false :=
  ⟨(server_check_unconditional_teardown (.exc .connect "refused") false).1,
   (server_check_unconditional_teardown (.exc .connect "refused") false).2.1 rfl⟩

/-- C8: classification is a pure function of its observable inputs — two
runs with the same fixture name, the same timed-out status, the same exit
status and the same captured stderr (stdout left arbitrary) are classified
identically. -/
theorem classification_deterministic (name : String) (server : ServerResult)
    (r r' : ExecResult) (h : sameClassInputs r r') :
    run_and_classify name server r = run_and_classify name server r' := by
  cases r with
  | timedOut =>
    cases r' with
    | timedOut => rfl
    | completed rc out err => exact absurd h (by simp [sameClassInputs])
  | completed rc out err =>
    cases r' with
    | timedOut => exact absurd h (by simp [sameClassInputs])
    | completed rc' out' err' =>
      obtain ⟨h1, h2⟩ := h
      subst h1
      subst h2
      rfl

/-- Witness for C8: two completed runs differing only in stdout are
classified identically. -/
theorem classification_deterministic_witness :
    run_and_classify "test3.wave" (.exc .connect "refused") (.completed 0 "AAA" "") =
      run_and_classify "test3.wave" (.exc .connect "refused") (.completed 0 "BBB" "") :=
  classification_deterministic "test3.wave" (.exc .connect "refused")
    (.completed 0 "AAA" "") (.completed 0 "BBB" "") ⟨rfl, rfl⟩

/-- C9: in standard mode the captured stdout never influences the outcome
(and neither does the server-check exchange, which is not consulted for a
non-test56 fixture): failure signatures are searched only in stderr. -/
theorem stdout_never_affects_outcome (name : String) (hname : name ≠ "test56.wave")
    (server server' : ServerResult) (rc : Int) (out out' err : String) :
    run_and_classify name server (.completed rc out err) =
      run_and_classify name server' (.completed rc out' err) := by
  have hb : (name == "test56.wave") = false := beq_eq_false_iff_ne.mpr hname
  simp [run_and_classify, hb]

/-- Witness for C9: equal name, exit status and stderr but different stdout
texts and different server-exchange results give the same outcome. -/
theorem stdout_never_affects_outcome_witness :
    run_and_classify "test5.wave" (.ok "anything") (.completed 2 "AAA" "warning") =
      run_and_classify "test5.wave" (.exc .recv "late") (.completed 2 "BBB" "warning") :=
  stdout_never_affects_outcome "test5.wave" (by decide) (.ok "anything")
    (.exc .recv "late") 2 "AAA" "BBB" "warning"

/-- C10: test61.wave and test62.wave each spawn exactly one detached daemon
thread whose body sleeps half a second, sends one UDP datagram to
127.0.0.1:8080 and closes the socket; the thread is never joined and never
cancelled, and the classified outcome is a function of the execution and
server-exchange results only, so the fate of the stimulus cannot alter
it. -/
theorem udp_stimulus_fire_and_forget (name : String)
    (h : name = "test61.wave" ∨ name = "test62.wave") :
    threads_spawned name = [⟨send_udp_for_test61, true, false, false⟩] ∧
    send_udp_for_test61 =
      [.sleep (1 / 2), .sendto "hello from python\n" "127.0.0.1" 8080, .sockClose] ∧
    (send_udp_for_test61.filter UdpAct.isSend).length = 1 ∧
    ∀ env env' : HarnessEnv, env.server = env'.server → env.exec = env'.exec →
      run_one env name = run_one env' name := by
  refine ⟨?_, rfl, rfl, ?_⟩
  · rcases h with h | h <;> subst h <;> rfl
  · intro env env' hs he
    unfold run_one
    rw [hs, he]

/-- Witness for C10: the test61 fixture spawns the single stimulus thread,
and flipping only the stimulus-delivery bit of the environment leaves the
outcome unchanged. -/
theorem udp_stimulus_fire_and_forget_witness :
    threads_spawned "test61.wave" = [⟨send_udp_for_test61, true, false, false⟩] ∧
    run_one ⟨true, true, [], false, fun _ => .completed 0 "" "", .exc .connect "refused", false⟩
        "test61.wave" =
      run_one ⟨true, true, [], false, fun _ => .completed 0 "" "", .exc .connect "refused", true⟩
        "test61.wave" :=
  ⟨(udp_stimulus_fire_and_forget "test61.wave" (Or.inl rfl)).1,
   (udp_stimulus_fire_and_forget "test61.wave" (Or.inl rfl)).2.2.2 _ _ rfl rfl⟩

/-- Every value `run_and_classify` can return is one of the five outcome
codes. -/
theorem run_and_classify_outcomeOk (name : String) (server : ServerResult)
    (res : ExecResult) :
    outcomeOk (run_and_classify name server res) = true := by
  cases server <;> cases res <;>
    simp only [run_and_classify, run_test56_server] <;>
    (repeat' split) <;> decide

/-- The five bucket comprehensions partition any results list all of whose
outcomes are among the five codes: their sizes sum to the list length. -/
theorem bucket_sum (rs : List (String × Int))
    (h : rs.all (fun p => outcomeOk p.2) = true) :
    (pass_zero rs).length + (pass_nonzero rs).length + (skip_tests rs).length +
      (fail_tests rs).length + (timeout_tests rs).length = rs.length := by
  induction rs with
  | nil => rfl
  | cons p t ih =>
    rw [List.all_cons, Bool.and_eq_true] at h
    obtain ⟨hp, ht⟩ := h
    have ih' := ih ht
    have h5 : p.2 = 1 ∨ p.2 = 3 ∨ p.2 = 0 ∨ p.2 = 2 ∨ p.2 = -1 := by
      simpa [outcomeOk, or_assoc] using hp
    have key : ∀ k : Int, (List.filter (fun q : String × Int => q.2 == k) (p :: t)).length =
        (if p.2 = k then 1 else 0) +
          (List.filter (fun q : String × Int => q.2 == k) t).length := by
      intro k
      rw [List.filter_cons]
      by_cases hk : p.2 = k
      · simp [hk]
        omega
      · simp [hk]
    simp only [pass_zero, pass_nonzero, skip_tests, fail_tests, timeout_tests,
      List.length_map] at ih' ⊢
    rw [key 1, key 3, key 2, key 0, key (-1), List.length_cons]
    rcases h5 with h1 | h1 | h1 | h1 | h1 <;> rw [h1] <;> norm_num <;> omega

/-- C4: the results list holds exactly one (name, outcome) pair per
discovered fixture, in discovery order; every recorded outcome is one of the
five codes PASS_ZERO (1), PASS_NONZERO (3), FAIL (0), SKIP (2),
TIMEOUT (-1); and the five report buckets partition the list, their sizes
summing to the number of discovered fixtures. -/
theorem results_one_outcome_per_fixture (env : HarnessEnv) :
    (driverResults env).map Prod.fst = discoveredNames env ∧
    (driverResults env).length = (discoveredNames env).length ∧
    (driverResults env).all (fun p => outcomeOk p.2) = true ∧
    (pass_zero (driverResults env)).length + (pass_nonzero (driverResults env)).length +
      (skip_tests (driverResults env)).length + (fail_tests (driverResults env)).length +
      (timeout_tests (driverResults env)).length = (discoveredNames env).length := by
  have hall : (driverResults env).all (fun p => outcomeOk p.2) = true := by
    rw [List.all_eq_true]
    intro p hp
    rw [driverResults, List.mem_map] at hp
    obtain ⟨n, _, rfl⟩ := hp
    exact run_and_classify_outcomeOk n env.server (env.exec n)
  have hlen : (driverResults env).length = (discoveredNames env).length := by
    rw [driverResults, List.length_map]
  refine ⟨?_, hlen, hall, ?_⟩
  · rw [driverResults, List.map_map]
    exact List.map_id _
  · rw [bucket_sum (driverResults env) hall, hlen]

/-- The lexicographic comparison is total. -/
theorem charsLe_total (as : List Char) : ∀ bs : List Char,
    charsLe as bs = true ∨ charsLe bs as = true := by
  induction as with
  | nil => intro bs; left; rfl
  | cons a as ih =>
    intro bs
    cases bs with
    | nil => right; rfl
    | cons b bs =>
      by_cases hab : a = b
      · subst hab
        simp only [charsLe, if_pos rfl]
        exact ih bs
      · rcases lt_trichotomy a b with h | h | h
        · left; simp [charsLe, hab, h]
        · exact absurd h hab
        · right
          have hba : b ≠ a := fun e => hab e.symm
          simp [charsLe, hba, h]

/-- The lexicographic comparison is transitive. -/
theorem charsLe_trans (as : List Char) : ∀ bs cs : List Char,
    charsLe as bs = true → charsLe bs cs = true → charsLe as cs = true := by
  induction as with
  | nil => intro bs cs _ _; rfl
  | cons a as ih =>
    intro bs cs h1 h2
    cases bs with
    | nil => exact Bool.noConfusion h1
    | cons b bs =>
      cases cs with
      | nil => exact Bool.noConfusion h2
      | cons c cs =>
        by_cases hab : a = b <;> by_cases hbc : b = c
        · subst hab; subst hbc
          simp only [charsLe, if_pos rfl] at h1 h2 ⊢
          exact ih bs cs h1 h2
        · subst hab
          simp only [charsLe, if_neg hbc, decide_eq_true_eq] at h2 ⊢
          exact h2
        · subst hbc
          simp only [charsLe, if_neg hab, decide_eq_true_eq] at h1
          simp only [charsLe, if_neg hab, decide_eq_true_eq]
          exact h1
        · simp only [charsLe, if_neg hab, decide_eq_true_eq] at h1
          simp only [charsLe, if_neg hbc, decide_eq_true_eq] at h2
          have hac : a < c := lt_trans h1 h2
          simp [charsLe, ne_of_lt hac, hac]

/-- Totality of the string comparison. -/
theorem strLeB_total (a b : String) : strLeB a b = true ∨ strLeB b a = true :=
  charsLe_total a.data b.data

/-- Transitivity of the string comparison. -/
theorem strLeB_trans {a b c : String} (h1 : strLeB a b = true) (h2 : strLeB b c = true) :
    strLeB a c = true :=
  charsLe_trans a.data b.data c.data h1 h2

/-- A list with a name inserted is a permutation of the name consed on. -/
theorem perm_insertSorted (x : String) (l : List String) :
    (insertSorted x l).Perm (x :: l) := by
  induction l with
  | nil => exact List.Perm.refl _
  | cons y ys ih =>
    simp only [insertSorted]
    cases hxy : strLeB x y with
    | true =>
      simp only [if_true]
      exact List.Perm.refl _
    | false =>
      simp only [Bool.false_eq_true, if_false]
      exact (ih.cons y).trans (List.Perm.swap x y ys)

/-- Inserting into a sorted list keeps it sorted. -/
theorem sorted_insertSorted (x : String) (l : List String)
    (h : List.Sorted strLeRel l) : List.Sorted strLeRel (insertSorted x l) := by
  induction l with
  | nil => simp [insertSorted, strLeRel]
  | cons y ys ih =>
    simp only [insertSorted]
    cases hxy : strLeB x y with
    | true =>
      simp only [if_true]
      refine List.Pairwise.cons ?_ h
      intro b hb
      rcases List.mem_cons.mp hb with rfl | hb2
      · exact hxy
      · exact strLeB_trans hxy (List.rel_of_sorted_cons h b hb2)
    | false =>
      simp only [Bool.false_eq_true, if_false]
      have hyx : strLeB y x = true := by
        rcases strLeB_total x y with h1 | h1
        · rw [h1] at hxy; exact absurd hxy (by simp)
        · exact h1
      refine List.Pairwise.cons ?_ (ih h.of_cons)
      intro b hb
      have hb2 : b ∈ x :: ys := (perm_insertSorted x ys).mem_iff.mp hb
      rcases List.mem_cons.mp hb2 with rfl | hb3
      · exact hyx
      · exact List.rel_of_sorted_cons h b hb3

/-- The name sort is a permutation of its input. -/
theorem sortNames_perm (l : List String) : (sortNames l).Perm l := by
  induction l with
  | nil => exact List.Perm.refl _
  | cons x xs ih =>
    simp only [sortNames]
    exact (perm_insertSorted x (sortNames xs)).trans (ih.cons x)

/-- The name sort sorts. -/
theorem sortNames_sorted (l : List String) : List.Sorted strLeRel (sortNames l) := by
  induction l with
  | nil => simp [sortNames]
  | cons x xs ih => exact sorted_insertSorted x (sortNames xs) ih

/-- The char-list comparison rules out a strict lexicographic descent. -/
theorem charsLe_not_lex (as bs : List Char) (h : charsLe as bs = true) :
    ¬ List.Lex (· < ·) bs as := by
  intro hlex
  induction hlex with
  | nil => exact Bool.noConfusion h
  | @cons x l1 l2 _ ih =>
    simp only [charsLe, if_pos rfl] at h
    exact ih h
  | @rel x l1 y l2 hxy =>
    by_cases hyx : y = x
    · subst hyx; exact absurd hxy (lt_irrefl y)
    · simp only [charsLe, if_neg hyx, decide_eq_true_eq] at h
      exact absurd hxy (not_lt_of_gt h)

/-- The executable comparison implies the library order on strings. -/
theorem strLeB_le (a b : String) (h : strLeB a b = true) : a ≤ b := by
  have hnot : ¬ b < a := by
    rw [String.lt_iff_toList_lt]
    exact charsLe_not_lex a.data b.data h
  exact not_lt.mp hnot

/-- C5: discovery yields the directory entries matching test*.wave in
lexicographically sorted order (stated both for the executable Python-style
comparison and for the library order on strings), followed — exactly when
the test28/main.wave entry point exists — by the single appended
directory-form fixture; over an unchanged directory the produced sequence
is identical on every run. -/
theorem discovery_sorted_stable (env : HarnessEnv) (hdir : env.testDirExists = true) :
    List.Sorted strLeRel (globNames env) ∧
    List.Sorted (· ≤ ·) (globNames env) ∧
    (globNames env).Perm (env.dirFiles.filter matchesTestGlob) ∧
    discoveredNames env =
      globNames env ++ (if env.test28Exists then [DIR_FIXTURE] else []) ∧
    ∀ env2 : HarnessEnv, env2.testDirExists = env.testDirExists →
      env2.dirFiles = env.dirFiles → env2.test28Exists = env.test28Exists →
      discoveredNames env2 = discoveredNames env := by
  refine ⟨?_, ?_, ?_, ?_, ?_⟩
  · simp only [globNames, hdir, if_true]
    exact sortNames_sorted _
  · simp only [globNames, hdir, if_true]
    exact (sortNames_sorted _).imp (fun h => strLeB_le _ _ h)
  · simp only [globNames, hdir, if_true]
    exact sortNames_perm _
  · simp [discoveredNames, test28Present, hdir]
  · intro env2 h1 h2 h3
    simp [discoveredNames, globNames, test28Present, h1, h2, h3]

/-- Witness for C5: on the concrete directory the glob matches come out
sorted and the directory fixture is appended at the end. -/
theorem discovery_sorted_stable_witness :
    List.Sorted (· ≤ ·) (globNames envSortW) ∧
    discoveredNames envSortW = globNames envSortW ++ [DIR_FIXTURE] :=
  ⟨(discovery_sorted_stable envSortW rfl).2.1,
   (discovery_sorted_stable envSortW rfl).2.2.2.1⟩

/-- Counterexample to C6: with the compiler binary present and the root test
directory missing, the harness does not surface any fatal error — pathlib
glob over a missing directory silently yields nothing, so the run completes
normally with zero discovered fixtures and an empty results list. -/
theorem missing_testdir_counterexample :
    envNoDir.testDirExists = false ∧
    run_harness envNoDir = .finished [] ∧
    run_harness envNoDir ≠ .fatal 1 := by
  refine ⟨rfl, rfl, ?_⟩
  intro hcontra
  exact HarnessExit.noConfusion hcontra

/-- C6 as amended: when the compiler binary exists and the root test
directory does not, the harness proceeds silently with zero discovered
fixtures and finishes with an empty results list (no fatal error). -/
theorem missing_testdir_silent_empty (env : HarnessEnv) (hw : env.wavecExists = true)
    (hd : env.testDirExists = false) :
    run_harness env = .finished [] := by
  simp [run_harness, hw, driverResults, discoveredNames, globNames, test28Present, hd]

/-- Witness for the amended C6 at the concrete missing-directory
environment. -/
theorem missing_testdir_silent_empty_witness :
    run_harness envNoDir = .finished [] :=
  missing_testdir_silent_empty envNoDir rfl rfl

/-- C7: when the compiler binary is absent the harness exits with the
nonzero status 1 before any fixture runs, and no results list is ever
produced. -/
theorem missing_compiler_aborts (env : HarnessEnv) (h : env.wavecExists = false) :
    run_harness env = .fatal 1 ∧
    ∀ rs : List (String × Int), run_harness env ≠ .finished rs := by
  have hfatal : run_harness env = .fatal 1 := by simp [run_harness, h]
  refine ⟨hfatal, ?_⟩
  intro rs hcontra
  rw [hfatal] at hcontra
  exact HarnessExit.noConfusion hcontra

/-- Witness for C7 at the concrete missing-compiler environment. -/
theorem missing_compiler_aborts_witness :
    run_harness envNoWavec = .fatal 1 :=
  (missing_compiler_aborts envNoWavec rfl).1
